import Mathlib

/-!
Verification of the CaseWrite webhook ingestion path (signature verification
and source-type normalization) against its specification.

The development shallowly embeds the JavaScript sources:
  - services/document-service/webhookHandler.js
      (verifySignature, handleEmailWebhook, handleScannerWebhook,
       handleExternalSystemWebhook, processWebhook)
  - src/api/webhookRoutes.js (raw-body capture and the POST /:type route)
together with the documented semantics of the Node.js library functions they
call (crypto.createHmac / HMAC-SHA256, crypto.timingSafeEqual, JSON.parse,
JSON.stringify, Buffer.from on UTF-8 strings).

JSON values are modelled by the inductive `Json`; JavaScript property access,
truthiness and the defaulting operator are modelled by `Json.getField`,
`jsTruthy` and `jsOr`.  The downstream document pipeline
(documentService.processWebhookDocument) is an external collaborator and is a
parameter of the handler model; the handler additionally returns the list of
pipeline invocations it performed, so that call-count properties can be
stated.
-/

/-- JSON values as produced by JavaScript's JSON.parse: null, booleans,
numbers (integral numerals suffice for every value this development touches),
strings, arrays and objects with insertion-ordered fields. -/
inductive Json where
  | null : Json
  | bool : Bool → Json
  | num : Int → Json
  | str : String → Json
  | arr : List Json → Json
  | obj : List (String × Json) → Json

/-- Last-match lookup in an object's field list, mirroring JavaScript
property semantics where a later duplicate key overwrites an earlier one.
(The JSON parser below never produces duplicates, so this coincides with
first-match on parsed values.) -/
def getFieldList : List (String × Json) → String → Option Json
  | [], _ => none
  | (k, v) :: rest, key =>
    match getFieldList rest key with
    | some r => some r
    | none => if k = key then some v else none

/-- JavaScript property access `j.key`: a field of an object, `undefined`
(here `none`) on anything else.  Access on `null` is reached in the source
only through the optional-chaining operator, which also yields undefined. -/
def Json.getField : Json → String → Option Json
  | .obj fs, key => getFieldList fs key
  | _, _ => none

/-- JavaScript index access `j[i]` for array values; `undefined` (`none`)
otherwise.  (The source only indexes values expected to be arrays.) -/
def Json.getIndex : Json → Nat → Option Json
  | .arr xs, i => xs.get? i
  | _, _ => none

/-- Property access through an optional chain, `v?.key`. -/
def jsGet (v : Option Json) (key : String) : Option Json :=
  v.bind (fun j => j.getField key)

/-- Index access through an optional chain, `v?.[i]`. -/
def jsIdx (v : Option Json) (i : Nat) : Option Json :=
  v.bind (fun j => j.getIndex i)

/-- JavaScript truthiness of a JSON value: `null`, `false`, `0` and the empty
string are falsy, everything else is truthy. -/
def jsTruthy : Json → Bool
  | .null => false
  | .bool b => b
  | .num n => n != 0
  | .str s => s != ""
  | .arr _ => true
  | .obj _ => true

/-- The JavaScript defaulting idiom `x || d` where `x` may also be absent
(`undefined`): the value when present and truthy, the default otherwise. -/
def jsOr (x : Option Json) (d : Json) : Json :=
  match x with
  | some v => if jsTruthy v then v else d
  | none => d

example : jsOr (some (Json.str "a")) (Json.str "d") = Json.str "a" := rfl
example : jsOr (some (Json.str "")) (Json.str "d") = Json.str "d" := rfl
example : jsOr none (Json.str "d") = Json.str "d" := rfl
example : jsGet (jsIdx (Json.getField (Json.obj [("attachments", Json.arr [Json.obj [("url", Json.str "u")]])]) "attachments") 0) "url" = some (Json.str "u") := rfl

/-!
UTF-8 encoding, SHA-256 and HMAC-SHA256.

Node's `crypto.createHmac('sha256', secret).update(s).digest('hex')` operates
on the UTF-8 bytes of `secret` and `s` and emits a lowercase-hex digest;
`Buffer.from(s)` likewise yields the UTF-8 bytes of `s`.  These library
semantics are embedded executably below (bytes are natural numbers below
256, 32-bit words are naturals reduced modulo 2^32).
-/

/-- UTF-8 encoding of a single character. -/
def utf8EncodeChar (c : Char) : List Nat :=
  let n := c.toNat
  if n < 128 then [n]
  else if n < 2048 then [192 ||| (n >>> 6), 128 ||| (n &&& 63)]
  else if n < 65536 then
    [224 ||| (n >>> 12), 128 ||| ((n >>> 6) &&& 63), 128 ||| (n &&& 63)]
  else
    [240 ||| (n >>> 18), 128 ||| ((n >>> 12) &&& 63),
     128 ||| ((n >>> 6) &&& 63), 128 ||| (n &&& 63)]

/-- UTF-8 bytes of a string, the byte sequence Node's Buffer and hash
functions consume. -/
def utf8Bytes (s : String) : List Nat :=
  s.data.foldr (fun c acc => utf8EncodeChar c ++ acc) []

/-- Truncation to a 32-bit word. -/
def w32 (n : Nat) : Nat := n % 4294967296

/-- Right rotation of a 32-bit word. -/
def rotr (n x : Nat) : Nat := w32 ((x >>> n) ||| (x <<< (32 - n)))

/-- Bitwise complement of a 32-bit word. -/
def not32 (x : Nat) : Nat := x ^^^ 4294967295

/-- SHA-256 small sigma 0. -/
def ssig0 (x : Nat) : Nat := (rotr 7 x) ^^^ (rotr 18 x) ^^^ (x >>> 3)

/-- SHA-256 small sigma 1. -/
def ssig1 (x : Nat) : Nat := (rotr 17 x) ^^^ (rotr 19 x) ^^^ (x >>> 10)

/-- SHA-256 big sigma 0. -/
def bsig0 (x : Nat) : Nat := (rotr 2 x) ^^^ (rotr 13 x) ^^^ (rotr 22 x)

/-- SHA-256 big sigma 1. -/
def bsig1 (x : Nat) : Nat := (rotr 6 x) ^^^ (rotr 11 x) ^^^ (rotr 25 x)

/-- SHA-256 choice function. -/
def chF (x y z : Nat) : Nat := (x &&& y) ^^^ ((not32 x) &&& z)

/-- SHA-256 majority function. -/
def majF (x y z : Nat) : Nat := (x &&& y) ^^^ (x &&& z) ^^^ (y &&& z)

/-- The 64 SHA-256 round constants (FIPS 180-4, written in decimal). -/
def sha256K : List Nat :=
  [1116352408, 1899447441, 3049323471, 3921009573, 961987163,
   1508970993, 2453635748, 2870763221, 3624381080, 310598401,
   607225278, 1426881987, 1925078388, 2162078206, 2614888103,
   3248222580, 3835390401, 4022224774, 264347078, 604807628,
   770255983, 1249150122, 1555081692, 1996064986, 2554220882,
   2821834349, 2952996808, 3210313671, 3336571891, 3584528711,
   113926993, 338241895, 666307205, 773529912, 1294757372,
   1396182291, 1695183700, 1986661051, 2177026350, 2456956037,
   2730485921, 2820302411, 3259730800, 3345764771, 3516065817,
   3600352804, 4094571909, 275423344, 430227734, 506948616,
   659060556, 883997877, 958139571, 1322822218, 1537002063,
   1747873779, 1955562222, 2024104815, 2227730452, 2361852424,
   2428436474, 2756734187, 3204031479, 3329325298]

/-- The SHA-256 initial hash value (FIPS 180-4, written in decimal). -/
def sha256Init : List Nat :=
  [1779033703, 3144134277, 1013904242, 2773480762,
   1359893119, 2600822924, 528734635, 1541459225]

/-- A natural number as `k` big-endian bytes. -/
def natToBytesBE (k n : Nat) : List Nat :=
  (List.range k).map (fun i => (n >>> (8 * (k - 1 - i))) &&& 255)

/-- SHA-256 message padding: append 0x80, zeros to 56 mod 64, and the
64-bit big-endian bit length. -/
def sha256Pad (msg : List Nat) : List Nat :=
  msg ++ [128] ++ List.replicate ((119 - msg.length % 64) % 64) 0
      ++ natToBytesBE 8 (msg.length * 8)

/-- Bytes grouped into big-endian 32-bit words. -/
def bytesToWords : List Nat → List Nat
  | b0 :: b1 :: b2 :: b3 :: rest =>
    ((((b0 <<< 8) ||| b1) <<< 8 ||| b2) <<< 8 ||| b3) :: bytesToWords rest
  | _ => []

/-- Words grouped into 16-word blocks (fuel-driven; `fuel` bounds the number
of blocks). -/
def words16 : Nat → List Nat → List (List Nat)
  | 0, _ => []
  | _ + 1, [] => []
  | fuel + 1, ws => ws.take 16 :: words16 fuel (ws.drop 16)

/-- The SHA-256 message schedule: a 16-word block extended to 64 words. -/
def sha256Schedule (block : List Nat) : List Nat :=
  (List.range 48).foldl
    (fun acc _ =>
      let i := acc.length
      acc ++ [w32 (ssig1 (acc.getD (i - 2) 0) + acc.getD (i - 7) 0 +
                   ssig0 (acc.getD (i - 15) 0) + acc.getD (i - 16) 0)])
    block

/-- One SHA-256 round on the eight-word working state; the pair carries the
schedule word and the round constant. -/
def sha256Round (st : List Nat) (wk : Nat × Nat) : List Nat :=
  match st with
  | [a, b, c, d, e, f, g, h] =>
    let t1 := w32 (h + bsig1 e + chF e f g + wk.2 + wk.1)
    let t2 := w32 (bsig0 a + majF a b c)
    [w32 (t1 + t2), a, b, c, w32 (d + t1), e, f, g]
  | other => other

/-- SHA-256 compression of one 16-word block into the chaining value. -/
def sha256Compress (h : List Nat) (block : List Nat) : List Nat :=
  let out := ((sha256Schedule block).zip sha256K).foldl sha256Round h
  (h.zip out).map (fun p => w32 (p.1 + p.2))

/-- SHA-256 of a byte sequence, as its 32 digest bytes. -/
def sha256 (msg : List Nat) : List Nat :=
  let ws := bytesToWords (sha256Pad msg)
  let hFinal := (words16 ws.length ws).foldl sha256Compress sha256Init
  (hFinal.map (natToBytesBE 4)).flatten

/-- Whether a character is a lowercase hexadecimal digit. -/
def isLowerHexDigit (c : Char) : Bool :=
  ('0' ≤ c && c ≤ '9') || ('a' ≤ c && c ≤ 'f')

/-- A byte sequence rendered as lowercase hex, as Node's digest('hex').
`Nat.digitChar` yields the lowercase digit for values below sixteen. -/
def bytesToHex (bs : List Nat) : String :=
  String.mk (bs.foldr
    (fun b acc => Nat.digitChar (b / 16 % 16) :: Nat.digitChar (b % 16) :: acc)
    [])

/-- HMAC-SHA256 over byte sequences (RFC 2104 with SHA-256, block size 64). -/
def hmacSha256 (key msg : List Nat) : List Nat :=
  let k0 := if 64 < key.length then sha256 key else key
  let kp := k0 ++ List.replicate (64 - k0.length) 0
  sha256 ((kp.map (fun b => b ^^^ 92)) ++ sha256 ((kp.map (fun b => b ^^^ 54)) ++ msg))

/-- Node's `crypto.createHmac('sha256', secret).update(msg).digest('hex')`:
HMAC-SHA256 over the UTF-8 bytes of secret and message, rendered as
lowercase hex. -/
def hmacSha256Hex (secret msg : String) : String :=
  bytesToHex (hmacSha256 (utf8Bytes secret) (utf8Bytes msg))

/-!
JSON.stringify and JSON.parse, as used by the webhook route
(`req.body = JSON.parse(req.rawBody)`) and the signature check
(`hmac.update(JSON.stringify(req.body))`).  Stringify emits fields in
insertion order with no whitespace; parse accepts standard JSON (with
integral numerals, which covers every body in this development) and keeps
the last of a duplicated object key, as ECMA-262 prescribes.
-/

/-- JSON.stringify escaping of one character of a string literal. -/
def escapeJsonChar (c : Char) : List Char :=
  if c = '"' then ['\\', '"']
  else if c = '\\' then ['\\', '\\']
  else if c.toNat = 8 then ['\\', 'b']
  else if c = '\t' then ['\\', 't']
  else if c = '\n' then ['\\', 'n']
  else if c.toNat = 12 then ['\\', 'f']
  else if c = '\r' then ['\\', 'r']
  else if c.toNat < 32 then
    ['\\', 'u', '0', '0', Nat.digitChar (c.toNat / 16 % 16), Nat.digitChar (c.toNat % 16)]
  else [c]

/-- A string as a JSON string literal, quoted and escaped. -/
def quoteJson (s : String) : String :=
  String.mk ('"' :: s.data.foldr (fun c acc => escapeJsonChar c ++ acc) ['"'])

mutual

/-- JSON.stringify of a value: no whitespace, object fields in insertion
order. -/
def jsonStringify : Json → String
  | .null => "null"
  | .bool true => "true"
  | .bool false => "false"
  | .num n => toString n
  | .str s => quoteJson s
  | .arr xs => "[" ++ stringifyElems xs ++ "]"
  | .obj fs => "\x7b" ++ stringifyFields fs ++ "\x7d"

/-- Comma-separated serialization of array elements. -/
def stringifyElems : List Json → String
  | [] => ""
  | [x] => jsonStringify x
  | x :: y :: rest => jsonStringify x ++ "," ++ stringifyElems (y :: rest)

/-- Comma-separated serialization of object fields. -/
def stringifyFields : List (String × Json) → String
  | [] => ""
  | [(k, v)] => quoteJson k ++ ":" ++ jsonStringify v
  | (k, v) :: f :: rest => quoteJson k ++ ":" ++ jsonStringify v ++ "," ++ stringifyFields (f :: rest)

end

/-- Insert a field into an object under construction with JavaScript
overwrite semantics: a repeated key keeps its first position but takes the
new value. -/
def insertField : List (String × Json) → String → Json → List (String × Json)
  | [], key, v => [(key, v)]
  | (k, w) :: rest, key, v =>
    if k = key then (k, v) :: rest else (k, w) :: insertField rest key v

/-- JSON whitespace skipping. -/
def skipWs : List Char → List Char
  | c :: rest =>
    if c = ' ' ∨ c = '\t' ∨ c = '\n' ∨ c = '\r' then skipWs rest else c :: rest
  | [] => []

/-- A hexadecimal digit's value, if it is one. -/
def hexVal (c : Char) : Option Nat :=
  if '0' ≤ c ∧ c ≤ '9' then some (c.toNat - 48)
  else if 'a' ≤ c ∧ c ≤ 'f' then some (c.toNat - 87)
  else if 'A' ≤ c ∧ c ≤ 'F' then some (c.toNat - 55)
  else none

/-- Decimal digits parsed greedily into a natural number, with the rest of
the input; fails when no digit is present. -/
def parseDigits (acc : Nat) (started : Bool) : List Char → Option (Nat × List Char)
  | c :: rest =>
    if '0' ≤ c ∧ c ≤ '9' then parseDigits (acc * 10 + (c.toNat - 48)) true rest
    else if started then some (acc, c :: rest) else none
  | [] => if started then some (acc, []) else none

/-- The body of a JSON string literal after the opening quote, handling the
standard escapes; fails on a lone backslash escape it does not know or a
missing closing quote. -/
def parseStringBody (fuel : Nat) (acc : List Char) (cs : List Char) :
    Option (String × List Char) :=
  match fuel, cs with
  | 0, _ => none
  | _ + 1, [] => none
  | fuel + 1, c :: rest =>
    if c = '"' then some (String.mk acc.reverse, rest)
    else if c = '\\' then
      match rest with
      | [] => none
      | e :: rest2 =>
        if e = '"' then parseStringBody fuel ('"' :: acc) rest2
        else if e = '\\' then parseStringBody fuel ('\\' :: acc) rest2
        else if e = '/' then parseStringBody fuel ('/' :: acc) rest2
        else if e = 'b' then parseStringBody fuel (Char.ofNat 8 :: acc) rest2
        else if e = 'f' then parseStringBody fuel (Char.ofNat 12 :: acc) rest2
        else if e = 'n' then parseStringBody fuel ('\n' :: acc) rest2
        else if e = 'r' then parseStringBody fuel ('\r' :: acc) rest2
        else if e = 't' then parseStringBody fuel ('\t' :: acc) rest2
        else if e = 'u' then
          match rest2 with
          | h1 :: h2 :: h3 :: h4 :: rest3 =>
            match hexVal h1, hexVal h2, hexVal h3, hexVal h4 with
            | some a, some b, some c2, some d =>
              parseStringBody fuel (Char.ofNat (((a * 16 + b) * 16 + c2) * 16 + d) :: acc) rest3
            | _, _, _, _ => none
          | _ => none
        else none
    else parseStringBody fuel (c :: acc) rest

mutual

/-- Recursive-descent JSON value parser (fuel-driven; fuel exceeding the
input length suffices). -/
def parseValue : Nat → List Char → Option (Json × List Char)
  | 0, _ => none
  | fuel + 1, cs =>
    match skipWs cs with
    | 'n' :: 'u' :: 'l' :: 'l' :: rest => some (.null, rest)
    | 't' :: 'r' :: 'u' :: 'e' :: rest => some (.bool true, rest)
    | 'f' :: 'a' :: 'l' :: 's' :: 'e' :: rest => some (.bool false, rest)
    | '"' :: rest =>
      match parseStringBody (rest.length + 1) [] rest with
      | some (s, rest2) => some (.str s, rest2)
      | none => none
    | '[' :: rest =>
      (match skipWs rest with
       | ']' :: rest2 => some (.arr [], rest2)
       | other => parseElems fuel [] other)
    | '-' :: rest =>
      (match parseDigits 0 false rest with
       | some (n, rest2) => some (.num (-(n : Int)), rest2)
       | none => none)
    | c :: rest =>
      if c = Char.ofNat 123 then
        match skipWs rest with
        | c2 :: rest2 =>
          if c2 = Char.ofNat 125 then some (.obj [], rest2)
          else parseFields fuel [] (c2 :: rest2)
        | [] => none
      else if '0' ≤ c ∧ c ≤ '9' then
        match parseDigits 0 false (c :: rest) with
        | some (n, rest2) => some (.num (n : Int), rest2)
        | none => none
      else none
    | [] => none

/-- Array elements after the opening bracket (on input known not to start
with a closing bracket). -/
def parseElems (fuel : Nat) (acc : List Json) (cs : List Char) :
    Option (Json × List Char) :=
  match fuel with
  | 0 => none
  | fuel + 1 =>
    match parseValue fuel cs with
    | none => none
    | some (v, rest) =>
      match skipWs rest with
      | ',' :: rest2 => parseElems fuel (v :: acc) rest2
      | ']' :: rest2 => some (.arr (v :: acc).reverse, rest2)
      | _ => none

/-- Object members after the opening brace (on input known not to start with
a closing brace). -/
def parseFields (fuel : Nat) (acc : List (String × Json)) (cs : List Char) :
    Option (Json × List Char) :=
  match fuel with
  | 0 => none
  | fuel + 1 =>
    match skipWs cs with
    | '"' :: rest =>
      match parseStringBody (rest.length + 1) [] rest with
      | none => none
      | some (k, rest2) =>
        match skipWs rest2 with
        | ':' :: rest3 =>
          match parseValue fuel rest3 with
          | none => none
          | some (v, rest4) =>
            let acc2 := insertField acc k v
            match skipWs rest4 with
            | ',' :: rest5 => parseFields fuel acc2 rest5
            | c :: rest5 =>
              if c = Char.ofNat 125 then some (.obj acc2, rest5) else none
            | [] => none
        | _ => none
    | _ => none

end

/-- JSON.parse of a string: a value followed only by whitespace; `none`
models the exception thrown on malformed input. -/
def jsonParse (s : String) : Option Json :=
  match parseValue (s.length + 1) s.data with
  | some (j, rest) => if skipWs rest = [] then some j else none
  | none => none

/-!
The webhook handler model (services/document-service/webhookHandler.js and
the POST /:type route of src/api/webhookRoutes.js).

A request carries the path segment `req.params.type`, the
`x-webhook-signature` header when present, the raw body string captured by
the route's raw-body middleware, and `req.body` as the route sets it.  The
per-source webhook secret configuration (`config.webhooks[type].secret`) is
a parameter, as is the downstream pipeline
`documentService.processWebhookDocument`, modelled as a function that either
returns a result or throws (Except).  The handler returns its HTTP response
together with the list of pipeline invocations it made.
-/

/-- An inbound webhook request as the handler sees it. -/
structure Request where
  paramsType : String
  signatureHeader : Option String
  rawBody : String
  body : Json

/-- The per-source secret configuration, `config.webhooks[type].secret`. -/
structure WebhookConfig where
  secretFor : String → Option String

/-- An HTTP response: status code and JSON payload. -/
structure Response where
  status : Nat
  body : Json

/-- The error payload shape used throughout the source,
an object carrying error.message and error.status. -/
def errorBody (message : String) (status : Nat) : Json :=
  Json.obj [("error", Json.obj [("message", Json.str message), ("status", Json.num status)])]

/-- The byte-examination trace of Node's constant-time comparison on two
equal-length buffers: the accumulated OR of byte XORs together with the
number of byte pairs examined.  Every pair is folded in; there is no early
exit on a differing byte. -/
def ctCompare : List Nat → List Nat → Nat × Nat
  | [], [] => (0, 0)
  | x :: xs, y :: ys =>
    let r := ctCompare xs ys
    (r.1 ||| (x ^^^ y), r.2 + 1)
  | _, _ => (1, 0)

/-- Node's `crypto.timingSafeEqual`: throws a RangeError when the buffers
differ in length, otherwise reports whether the accumulated XOR over all
bytes is zero. -/
def timingSafeEqual (a b : List Nat) : Except String Bool :=
  if a.length = b.length then .ok ((ctCompare a b).1 == 0)
  else .error "RangeError: Input buffers must have the same byte length"

/-- The `digest` computed by verifySignature of webhookHandler.js:
HMAC-SHA256 of `JSON.stringify(req.body)` — not of the raw body — rendered
as lowercase hex. -/
def computedDigest (req : Request) (secret : String) : String :=
  hmacSha256Hex secret (jsonStringify req.body)

/-- The `verifySignature(req, secret)` function of webhookHandler.js: reads
the x-webhook-signature header (absent or empty is falsy and fails), computes
the digest above and compares with `crypto.timingSafeEqual` on the UTF-8
bytes; the surrounding try/catch turns the length-mismatch RangeError into
`false`. -/
def verifySignature (req : Request) (secret : String) : Bool :=
  match req.signatureHeader with
  | none => false
  | some signature =>
    if signature = "" then false
    else
      match timingSafeEqual (utf8Bytes (computedDigest req secret)) (utf8Bytes signature) with
      | .ok b => b
      | .error _ => false

/-- The normalized document event (`webhookData` in the source): the object
each per-source handler builds and passes to the downstream pipeline.
Metadata is the literal list of fields of the source's object literal, each
possibly `undefined` (`none`). -/
structure WebhookData where
  source : Json
  documentUrl : Option Json
  documentType : Option Json
  metadata : List (String × Option Json)

/-- A metadata field's value, when the field carries one. -/
def metaGet (wd : WebhookData) (key : String) : Option Json :=
  match wd.metadata.lookup key with
  | some v => v
  | none => none

/-- The event built by `handleEmailWebhook`: documentUrl, documentType and
filename from the first attachment through optional chains, the remaining
metadata straight from the body. -/
def emailWebhookData (data : Json) : WebhookData :=
  let att0 := jsIdx (data.getField "attachments") 0
  { source := Json.str "email"
    documentUrl := jsGet att0 "url"
    documentType := jsGet att0 "contentType"
    metadata :=
      [("filename", jsGet att0 "filename"),
       ("sender", data.getField "sender"),
       ("subject", data.getField "subject"),
       ("receivedAt", data.getField "receivedAt"),
       ("emailId", data.getField "emailId")] }

/-- The event built by `handleScannerWebhook`: documentType defaults to
application/pdf through the JavaScript defaulting operator. -/
def scannerWebhookData (data : Json) : WebhookData :=
  { source := Json.str "scanner"
    documentUrl := data.getField "documentUrl"
    documentType := some (jsOr (data.getField "documentType") (Json.str "application/pdf"))
    metadata :=
      [("filename", data.getField "filename"),
       ("scannedBy", data.getField "scannedBy"),
       ("scannedAt", data.getField "scannedAt"),
       ("deviceId", data.getField "deviceId"),
       ("resolution", data.getField "resolution")] }

/-- The event built by `handleExternalSystemWebhook`: source defaults to
the string external through the JavaScript defaulting operator, documentType
is passed through unchanged. -/
def externalWebhookData (data : Json) : WebhookData :=
  { source := jsOr (data.getField "source") (Json.str "external")
    documentUrl := data.getField "documentUrl"
    documentType := data.getField "documentType"
    metadata :=
      [("filename", data.getField "filename"),
       ("externalId", data.getField "externalId"),
       ("externalSystem", data.getField "externalSystem"),
       ("createdAt", data.getField "createdAt"),
       ("createdBy", data.getField "createdBy"),
       ("additionalData", data.getField "additionalData")] }

/-- The downstream pipeline collaborator,
`documentService.processWebhookDocument`: returns a result or throws. -/
def Pipeline : Type := WebhookData → Except String Json

/-- A per-source handler body: build the event, call the pipeline, and wrap
a thrown error as the handler's own failure message.  Also reports the
pipeline invocations made (always exactly the one event). -/
def runSourceHandler (p : Pipeline) (failMsg : String) (wd : WebhookData) :
    Except String Json × List WebhookData :=
  (match p wd with
   | .ok r => .ok r
   | .error e => .error (failMsg ++ e), [wd])

/-- `handleEmailWebhook` of webhookHandler.js. -/
def handleEmailWebhook (p : Pipeline) (data : Json) :
    Except String Json × List WebhookData :=
  runSourceHandler p "Failed to handle email webhook: " (emailWebhookData data)

/-- `handleScannerWebhook` of webhookHandler.js. -/
def handleScannerWebhook (p : Pipeline) (data : Json) :
    Except String Json × List WebhookData :=
  runSourceHandler p "Failed to handle scanner webhook: " (scannerWebhookData data)

/-- `handleExternalSystemWebhook` of webhookHandler.js. -/
def handleExternalSystemWebhook (p : Pipeline) (data : Json) :
    Except String Json × List WebhookData :=
  runSourceHandler p "Failed to handle external system webhook: " (externalWebhookData data)

/-- The truthiness test of the guard
`if (webhookSecret && !verifySignature(req, webhookSecret))`: an absent or
empty-string secret is falsy, so the signature check is skipped. -/
def secretTruthy : Option String → Bool
  | none => false
  | some s => s != ""

/-- The signature guard of processWebhook,
`webhookSecret && !verifySignature(req, webhookSecret)`: true exactly when a
truthy secret is configured for the request's type and verification fails. -/
def signatureGuardRejects (cfg : WebhookConfig) (req : Request) : Bool :=
  secretTruthy (cfg.secretFor req.paramsType)
    && !(verifySignature req ((cfg.secretFor req.paramsType).getD ""))

/-- The `res.json(result)` and catch-clause response shaping of
processWebhook: a handler's successful result is a 200 response with the
result as body, and a thrown error is a 500 response with the error payload. -/
def finishHandler : Except String Json × List WebhookData → Response × List WebhookData
  | (.ok j, calls) => ({ status := 200, body := j }, calls)
  | (.error e, calls) => ({ status := 500, body := errorBody e 500 }, calls)

/-- The `switch (webhookType)` statement of processWebhook: exact string
dispatch over email, scanner and external, with the default branch answering
400 Unsupported webhook type without producing any event. -/
def dispatchWebhook (p : Pipeline) (t : String) (body : Json) :
    Response × List WebhookData :=
  match t with
  | "email" => finishHandler (handleEmailWebhook p body)
  | "scanner" => finishHandler (handleScannerWebhook p body)
  | "external" => finishHandler (handleExternalSystemWebhook p body)
  | other =>
    ({ status := 400, body := errorBody ("Unsupported webhook type: " ++ other) 400 }, [])

/-- `processWebhook(req, res)` of webhookHandler.js: the signature guard,
the switch on `req.params.type` over email, scanner and external with a 400
default branch, a 200 response carrying the handler result, and the
top-level catch converting any thrown error into a 500 error payload.
Returns the response together with the pipeline invocations made. -/
def processWebhook (p : Pipeline) (cfg : WebhookConfig) (req : Request) :
    Response × List WebhookData :=
  if signatureGuardRejects cfg req then
    ({ status := 401, body := errorBody "Invalid webhook signature" 401 }, [])
  else
    dispatchWebhook p req.paramsType req.body

/-- The POST /:type route of webhookRoutes.js for a JSON request: the
raw-body middleware stores the received byte string in `req.rawBody`, and the
route sets `req.body = JSON.parse(req.rawBody)` before calling
`processWebhook`; a parse failure is caught by the route and never reaches
the handler (modelled as `none`). -/
def mkWebhookRequest (pathType : String) (sig : Option String) (raw : String) :
    Option Request :=
  match jsonParse raw with
  | some body => some { paramsType := pathType, signatureHeader := sig, rawBody := raw, body := body }
  | none => none

/-!
Concrete fixtures used by witnesses and counterexamples.
-/

/-- A downstream pipeline that always succeeds. -/
def okPipeline : Pipeline := fun _ => .ok (Json.str "processed")

/-- A downstream pipeline that always throws. -/
def failPipeline : Pipeline := fun _ => .error "downstream failure"

/-- A configuration with no secret for any source. -/
def emptyConfig : WebhookConfig := ⟨fun _ => none⟩

/-- A configuration whose email secret is the empty string. -/
def emptySecretConfig : WebhookConfig :=
  ⟨fun t => if t = "email" then some "" else none⟩

/-- A configuration with a nonempty secret for the email source. -/
def emailSecretConfig : WebhookConfig :=
  ⟨fun t => if t = "email" then some "sek" else none⟩

/-- An email request with no x-webhook-signature header. -/
def reqNoHeader : Request :=
  { paramsType := "email", signatureHeader := none, rawBody := "\x7b\x7d",
    body := Json.obj [] }

/-- A declared signature of the digest's length (64 zeros). -/
def sig64 : String := String.mk (List.replicate 64 '0')

/-- An email request declaring the 64-zero signature. -/
def reqSig64 : Request :=
  { paramsType := "email", signatureHeader := some sig64, rawBody := "\x7b\x7d",
    body := Json.obj [] }

/-- An email request declaring a two-character signature. -/
def reqSigShort : Request :=
  { paramsType := "email", signatureHeader := some "ab", rawBody := "\x7b\x7d",
    body := Json.obj [] }

/-- The first attachment of the specification's email round-trip input. -/
def emailSpecAttachment : Json :=
  Json.obj [("url", Json.str "http://x/f.pdf"), ("filename", Json.str "f.pdf"),
            ("contentType", Json.str "application/pdf")]

/-- The specification's email round-trip input body. -/
def emailSpecBody : Json :=
  Json.obj [("sender", Json.str "a@b.com"), ("subject", Json.str "Re: case"),
            ("receivedAt", Json.str "2025-01-01T00:00:00Z"), ("emailId", Json.str "E1"),
            ("attachments", Json.arr [emailSpecAttachment])]

/-- A raw JSON body whose bytes differ from the serialization of its parse
(a space after the colon). -/
def rawBodySpaced : String := "\x7b\"a\": 1\x7d"

/-- A configuration with the same nonempty secret for every source. -/
def allSecretConfig : WebhookConfig := ⟨fun _ => some "s3cr3t"⟩

/-- A concrete external-system webhook body declaring a sub-source. -/
def externalSpecBody : Json :=
  Json.obj [("source", Json.str "sap-hr"), ("documentUrl", Json.str "http://x/d.pdf"),
            ("documentType", Json.str "application/msword"), ("filename", Json.str "d.doc"),
            ("externalId", Json.str "X1"), ("externalSystem", Json.str "SAP"),
            ("createdAt", Json.str "2025-02-02T00:00:00Z"), ("createdBy", Json.str "u9"),
            ("additionalData", Json.obj [("k", Json.str "v")])]

/-!
Helper lemmas.
-/

/-- A disjunction of naturals is zero exactly when both are. -/
theorem natLorEqZeroIff (a b : Nat) : a ||| b = 0 ↔ a = 0 ∧ b = 0 := by
  constructor
  · intro h
    have hbit : ∀ i, a.testBit i = false ∧ b.testBit i = false := by
      intro i
      have := congrArg (fun n => Nat.testBit n i) h
      simpa [Nat.testBit_or] using this
    exact ⟨Nat.eq_of_testBit_eq (fun i => by simp [(hbit i).1]),
           Nat.eq_of_testBit_eq (fun i => by simp [(hbit i).2])⟩
  · rintro ⟨rfl, rfl⟩; rfl

/-- The constant-time fold examines every byte pair of two equal-length
inputs: the examination count is the full length regardless of content. -/
theorem ctCompare_steps : ∀ (a b : List Nat), a.length = b.length →
    (ctCompare a b).2 = a.length
  | [], [], _ => rfl
  | x :: xs, y :: ys, h => by
    simp [ctCompare, ctCompare_steps xs ys (by simpa using h)]
  | [], _ :: _, h => by simp at h
  | _ :: _, [], h => by simp at h

/-- On equal-length inputs the constant-time fold's accumulator is zero
exactly when the inputs are equal. -/
theorem ctCompare_eq_zero_iff : ∀ (a b : List Nat), a.length = b.length →
    ((ctCompare a b).1 = 0 ↔ a = b)
  | [], [], _ => by simp [ctCompare]
  | x :: xs, y :: ys, h => by
    have ih := ctCompare_eq_zero_iff xs ys (by simpa using h)
    simp [ctCompare, natLorEqZeroIff, Nat.xor_eq_zero, ih, and_comm]
  | [], _ :: _, h => by simp at h
  | _ :: _, [], h => by simp at h

/-- A digit character for a value below sixteen is a lowercase hex digit. -/
theorem digitChar_hex_of_lt (k : Nat) (h : k < 16) :
    isLowerHexDigit (Nat.digitChar k) = true := by
  interval_cases k <;> rfl

/-- A digit character of a residue modulo sixteen is a lowercase hex digit. -/
theorem digitChar_mod16_hex (m : Nat) : isLowerHexDigit (Nat.digitChar (m % 16)) = true :=
  digitChar_hex_of_lt _ (Nat.mod_lt _ (by norm_num))

/-- Characters contributed by the hex-rendering fold are hex digits. -/
theorem hexChars_of_foldr : ∀ (bs : List Nat), ∀ c ∈ bs.foldr
    (fun b acc => Nat.digitChar (b / 16 % 16) :: Nat.digitChar (b % 16) :: acc) [],
    isLowerHexDigit c = true
  | [] => by simp
  | b :: bs => by
    intro c hc
    rw [List.foldr_cons] at hc
    rcases List.mem_cons.mp hc with h | hc2
    · subst h; exact digitChar_mod16_hex _
    · rcases List.mem_cons.mp hc2 with h | hc3
      · subst h; exact digitChar_mod16_hex _
      · exact hexChars_of_foldr bs c hc3

/-- Every character of a hex rendering is a lowercase hex digit. -/
theorem bytesToHex_chars (bs : List Nat) :
    ∀ c ∈ (bytesToHex bs).data, isLowerHexDigit c = true :=
  hexChars_of_foldr bs


/-!
Claim theorems.
-/

/-- Claim C2: for a request whose declared signature is present (and, being a
header value, nonempty) and a configured secret, the verifier compares the
computed lowercase-hex digest against the declared signature with a
constant-time byte comparison — on equal lengths every byte pair is examined
(the examination count is the full length, independent of where any
difference lies) and the outcome is exactly byte equality — while two inputs
of differing byte length are an immediate mismatch: verification returns
false. -/
theorem claim2_constant_time_comparison (req : Request) (secret sig : String)
    (hsig : req.signatureHeader = some sig) (hne : sig ≠ "") :
    (∀ c ∈ (computedDigest req secret).data, isLowerHexDigit c = true)
    ∧ ((utf8Bytes (computedDigest req secret)).length = (utf8Bytes sig).length →
        (ctCompare (utf8Bytes (computedDigest req secret)) (utf8Bytes sig)).2
            = (utf8Bytes (computedDigest req secret)).length
        ∧ (verifySignature req secret = true ↔
            utf8Bytes (computedDigest req secret) = utf8Bytes sig))
    ∧ ((utf8Bytes (computedDigest req secret)).length ≠ (utf8Bytes sig).length →
        verifySignature req secret = false) := by
  obtain ⟨t, hdr, raw, body⟩ := req
  change hdr = some sig at hsig
  subst hsig
  have hv : verifySignature
      { paramsType := t, signatureHeader := some sig, rawBody := raw, body := body } secret =
      if sig = "" then false
      else
        match timingSafeEqual
            (utf8Bytes (computedDigest
              { paramsType := t, signatureHeader := some sig, rawBody := raw, body := body }
              secret))
            (utf8Bytes sig) with
        | .ok b => b
        | .error _ => false := rfl
  rw [if_neg hne] at hv
  refine ⟨bytesToHex_chars _, fun hlen => ?_, fun hlen => ?_⟩
  · refine ⟨ctCompare_steps _ _ hlen, ?_⟩
    rw [hv]
    simp only [timingSafeEqual]
    rw [if_pos hlen]
    simp only [beq_iff_eq]
    exact ctCompare_eq_zero_iff _ _ hlen
  · rw [hv]
    simp only [timingSafeEqual]
    rw [if_neg hlen]

set_option maxRecDepth 100000 in
/-- Witness for C2 at concrete inputs: an equal-length declared signature is
compared over all 64 digest bytes and decides byte equality, and a
two-character declared signature is an immediate mismatch. -/
theorem claim2_witness :
    ((ctCompare (utf8Bytes (computedDigest reqSig64 "k")) (utf8Bytes sig64)).2
        = (utf8Bytes (computedDigest reqSig64 "k")).length
      ∧ (verifySignature reqSig64 "k" = true ↔
          utf8Bytes (computedDigest reqSig64 "k") = utf8Bytes sig64))
    ∧ verifySignature reqSigShort "k" = false :=
  ⟨(claim2_constant_time_comparison reqSig64 "k" sig64 rfl (by decide)).2.1 (by decide),
   (claim2_constant_time_comparison reqSigShort "k" "ab" rfl (by decide)).2.2 (by decide)⟩

/-- A per-source dispatch branch makes exactly one pipeline call, answers 200
or 500, and turns a pipeline error into a 500 error-payload response. -/
theorem dispatchCase_spec (p : Pipeline) (msg : String) (wd : WebhookData) :
    (finishHandler (runSourceHandler p msg wd)).2.length ≤ 1
    ∧ (finishHandler (runSourceHandler p msg wd)).1.status ∈ ([200, 400, 500] : List Nat)
    ∧ ∀ w ∈ (finishHandler (runSourceHandler p msg wd)).2, ∀ e, p w = .error e →
        ∃ m, (finishHandler (runSourceHandler p msg wd)).1
          = { status := 500, body := errorBody m 500 } := by
  cases hp : p wd with
  | ok j => refine ⟨?_, ?_, ?_⟩ <;> simp [runSourceHandler, finishHandler, hp]
  | error e =>
    refine ⟨?_, ?_, ?_⟩
    · simp [runSourceHandler, finishHandler, hp]
    · simp [runSourceHandler, finishHandler, hp]
    · intro w hw e2 hpe
      exact ⟨msg ++ e, by simp [runSourceHandler, finishHandler, hp]⟩

/-- The switch dispatch makes at most one pipeline call, answers 200, 400 or
500, and turns a pipeline error on its event into a 500 error-payload
response. -/
theorem dispatchWebhook_spec (p : Pipeline) (t : String) (body : Json) :
    (dispatchWebhook p t body).2.length ≤ 1
    ∧ (dispatchWebhook p t body).1.status ∈ ([200, 400, 500] : List Nat)
    ∧ ∀ wd ∈ (dispatchWebhook p t body).2, ∀ e, p wd = .error e →
        ∃ m, (dispatchWebhook p t body).1 = { status := 500, body := errorBody m 500 } := by
  unfold dispatchWebhook
  split
  · exact dispatchCase_spec p _ _
  · exact dispatchCase_spec p _ _
  · exact dispatchCase_spec p _ _
  · exact ⟨by simp, by simp, by simp⟩

/-- The signature guard is false whenever no truthy secret is configured for
the request's type, whatever the header carries. -/
theorem signatureGuardRejects_of_untruthy (cfg : WebhookConfig) (req : Request)
    (hsec : secretTruthy (cfg.secretFor req.paramsType) = false) :
    signatureGuardRejects cfg req = false := by
  simp [signatureGuardRejects, hsec]

/-- Claim C3 (amended): when a nonempty secret is configured for the
request's source type and the x-webhook-signature header is absent,
verification fails — verifySignature returns false under every secret — and
the end-to-end handler answers 401 Invalid webhook signature making zero
pipeline calls.  (A configured empty-string secret is JavaScript-falsy and is
treated as unconfigured; see the counterexample.) -/
theorem claim3_missing_header_rejected (p : Pipeline) (cfg : WebhookConfig) (req : Request)
    (s : String) (hhdr : req.signatureHeader = none)
    (hsec : cfg.secretFor req.paramsType = some s) (hs : s ≠ "") :
    (∀ s2 : String, verifySignature req s2 = false)
    ∧ processWebhook p cfg req =
        ({ status := 401, body := errorBody "Invalid webhook signature" 401 }, []) := by
  have hver : ∀ s2 : String, verifySignature req s2 = false := by
    intro s2
    obtain ⟨t, hdr, raw, body⟩ := req
    change hdr = none at hhdr
    subst hhdr
    rfl
  have hg : signatureGuardRejects cfg req = true := by
    simp [signatureGuardRejects, hsec, secretTruthy, hs, hver]
  refine ⟨hver, ?_⟩
  simp [processWebhook, hg]

/-- Witness for C3 (amended) at a concrete configuration and request. -/
theorem claim3_witness :
    verifySignature reqNoHeader "sek" = false
    ∧ processWebhook okPipeline emailSecretConfig reqNoHeader =
        ({ status := 401, body := errorBody "Invalid webhook signature" 401 }, []) :=
  ⟨(claim3_missing_header_rejected okPipeline emailSecretConfig reqNoHeader "sek"
      rfl rfl (by decide)).1 "sek",
   (claim3_missing_header_rejected okPipeline emailSecretConfig reqNoHeader "sek"
      rfl rfl (by decide)).2⟩

/-- Counterexample for C3 as stated: a configured empty-string secret is
JavaScript-falsy, so with the header absent the handler does not answer 401 —
it dispatches, answers 200 and makes one downstream call. -/
theorem claim3_counterexample :
    emptySecretConfig.secretFor "email" = some ""
    ∧ reqNoHeader.signatureHeader = none
    ∧ (processWebhook okPipeline emptySecretConfig reqNoHeader).1.status = 200
    ∧ (processWebhook okPipeline emptySecretConfig reqNoHeader).2.length = 1 :=
  ⟨rfl, rfl, rfl, rfl⟩

/-- Claim C4: when no secret is configured for the request's source type,
signature verification is skipped and treated as passing: the handler never
answers 401, and its entire outcome is independent of whether a signature
header is present or what value it carries. -/
theorem claim4_missing_secret_bypass (p : Pipeline) (cfg : WebhookConfig) (req : Request)
    (hsec : cfg.secretFor req.paramsType = none) :
    (processWebhook p cfg req).1.status ≠ 401
    ∧ ∀ sig : Option String,
        processWebhook p cfg { req with signatureHeader := sig } = processWebhook p cfg req := by
  have hg : ∀ sig : Option String,
      signatureGuardRejects cfg { req with signatureHeader := sig } = false := by
    intro sig
    apply signatureGuardRejects_of_untruthy
    show secretTruthy (cfg.secretFor req.paramsType) = false
    rw [hsec]
    rfl
  have hg0 : signatureGuardRejects cfg req = false :=
    signatureGuardRejects_of_untruthy cfg req (by rw [hsec]; rfl)
  constructor
  · have hs := (dispatchWebhook_spec p req.paramsType req.body).2.1
    simp only [processWebhook, hg0, Bool.false_eq_true, if_false, ite_false]
    simp only [List.mem_cons, List.not_mem_nil, or_false] at hs
    rcases hs with h | h | h <;> simp [h]
  · intro sig
    simp only [processWebhook, hg (sig), hg0, Bool.false_eq_true, if_false, ite_false]

/-- Witness for C4 at a concrete configuration and request: no 401, and a
junk signature header changes nothing. -/
theorem claim4_witness :
    (processWebhook okPipeline emptyConfig reqNoHeader).1.status ≠ 401
    ∧ processWebhook okPipeline emptyConfig
        { reqNoHeader with signatureHeader := some "junk" }
        = processWebhook okPipeline emptyConfig reqNoHeader :=
  ⟨(claim4_missing_secret_bypass okPipeline emptyConfig reqNoHeader rfl).1,
   (claim4_missing_secret_bypass okPipeline emptyConfig reqNoHeader rfl).2 (some "junk")⟩

/-- Claim C5: dispatch is an exact string match on the source type over the
closed set email, scanner, external — whenever the signature guard does not
reject, any other source type makes the handler fail with the Unsupported
webhook type message, answer 400, and produce zero events and zero pipeline
calls, never falling through to a processing branch. -/
theorem claim5_unsupported_source (p : Pipeline) (cfg : WebhookConfig) (req : Request)
    (hguard : signatureGuardRejects cfg req = false)
    (ht : req.paramsType ∉ (["email", "scanner", "external"] : List String)) :
    processWebhook p cfg req =
      ({ status := 400,
         body := errorBody ("Unsupported webhook type: " ++ req.paramsType) 400 }, []) := by
  simp only [List.mem_cons, List.not_mem_nil, or_false, not_or] at ht
  obtain ⟨h1, h2, h3⟩ := ht
  simp only [processWebhook, hguard, Bool.false_eq_true, if_false, ite_false]
  unfold dispatchWebhook
  split
  · rename_i heq; exact absurd heq h1
  · rename_i heq; exact absurd heq h2
  · rename_i heq; exact absurd heq h3
  · rfl

/-- Witness for C5: a request of type fax against an unconfigured source
list is answered 400 with zero pipeline calls. -/
theorem claim5_witness :
    processWebhook okPipeline emptyConfig { reqNoHeader with paramsType := "fax" }
      = ({ status := 400,
           body := errorBody ("Unsupported webhook type: " ++ "fax") 400 }, []) :=
  claim5_unsupported_source okPipeline emptyConfig { reqNoHeader with paramsType := "fax" }
    rfl (by decide)

/-- Claim C6: for an email webhook body carrying sender, subject, receivedAt
and emailId and a non-empty attachments array, the normalized event takes
documentUrl, documentType and the filename metadata from the first
attachment and carries the body's sender, subject, receivedAt and emailId in
its metadata. -/
theorem claim6_email_normalization (data a : Json) (rest : List Json)
    (sv sj rv ev : Json)
    (hatt : data.getField "attachments" = some (Json.arr (a :: rest)))
    (hs : data.getField "sender" = some sv)
    (hj : data.getField "subject" = some sj)
    (hr : data.getField "receivedAt" = some rv)
    (he : data.getField "emailId" = some ev) :
    (emailWebhookData data).documentUrl = a.getField "url"
    ∧ (emailWebhookData data).documentType = a.getField "contentType"
    ∧ metaGet (emailWebhookData data) "filename" = a.getField "filename"
    ∧ metaGet (emailWebhookData data) "sender" = some sv
    ∧ metaGet (emailWebhookData data) "subject" = some sj
    ∧ metaGet (emailWebhookData data) "receivedAt" = some rv
    ∧ metaGet (emailWebhookData data) "emailId" = some ev := by
  refine ⟨?_, ?_, ?_, ?_, ?_, ?_, ?_⟩ <;>
    simp [emailWebhookData, metaGet, jsIdx, jsGet, hatt, hs, hj, hr, he,
      Json.getIndex, List.lookup]

/-- Witness for C6: the specification's round-trip input yields the
specified normalized event. -/
theorem claim6_witness :
    (emailWebhookData emailSpecBody).documentUrl = some (Json.str "http://x/f.pdf")
    ∧ (emailWebhookData emailSpecBody).documentType = some (Json.str "application/pdf")
    ∧ metaGet (emailWebhookData emailSpecBody) "filename" = some (Json.str "f.pdf")
    ∧ metaGet (emailWebhookData emailSpecBody) "sender" = some (Json.str "a@b.com")
    ∧ metaGet (emailWebhookData emailSpecBody) "subject" = some (Json.str "Re: case")
    ∧ metaGet (emailWebhookData emailSpecBody) "receivedAt"
        = some (Json.str "2025-01-01T00:00:00Z")
    ∧ metaGet (emailWebhookData emailSpecBody) "emailId" = some (Json.str "E1") :=
  claim6_email_normalization emailSpecBody emailSpecAttachment []
    (Json.str "a@b.com") (Json.str "Re: case") (Json.str "2025-01-01T00:00:00Z")
    (Json.str "E1") rfl rfl rfl rfl rfl

/-- Claim C7: an email webhook body whose attachments array is empty or
absent still normalizes — the event is built and handed to the pipeline —
with documentUrl and documentType both absent. -/
theorem claim7_email_empty_attachments (p : Pipeline) (data : Json)
    (hatt : data.getField "attachments" = none
        ∨ data.getField "attachments" = some (Json.arr [])) :
    (emailWebhookData data).documentUrl = none
    ∧ (emailWebhookData data).documentType = none
    ∧ (handleEmailWebhook p data).2 = [emailWebhookData data] := by
  rcases hatt with h | h <;>
    exact ⟨by simp [emailWebhookData, jsIdx, jsGet, h, Json.getIndex],
           by simp [emailWebhookData, jsIdx, jsGet, h, Json.getIndex],
           rfl⟩

/-- Witness for C7 at a body with no attachments field. -/
theorem claim7_witness :
    (emailWebhookData (Json.obj [])).documentUrl = none
    ∧ (emailWebhookData (Json.obj [])).documentType = none
    ∧ (handleEmailWebhook okPipeline (Json.obj [])).2 = [emailWebhookData (Json.obj [])] :=
  claim7_email_empty_attachments okPipeline (Json.obj []) (Or.inl rfl)

/-- Counterexample for C8 as stated: a present but empty-string documentType
is JavaScript-falsy, so the scanner normalization replaces it with the
default instead of using it unchanged. -/
theorem claim8_counterexample :
    (Json.obj [("documentType", Json.str "")]).getField "documentType"
      = some (Json.str "")
    ∧ (scannerWebhookData (Json.obj [("documentType", Json.str "")])).documentType
        = some (Json.str "application/pdf")
    ∧ Json.str "application/pdf" ≠ Json.str "" :=
  ⟨rfl, rfl, by simp⟩

/-- Claim C8 (amended): the scanner normalization defaults documentType to
application/pdf when the field is absent or carries a JavaScript-falsy value
(null, false, 0 or the empty string), and uses a present truthy value
unchanged. -/
theorem claim8_scanner_default (data : Json) :
    (data.getField "documentType" = none →
      (scannerWebhookData data).documentType = some (Json.str "application/pdf"))
    ∧ (∀ v, data.getField "documentType" = some v → jsTruthy v = true →
      (scannerWebhookData data).documentType = some v)
    ∧ (∀ v, data.getField "documentType" = some v → jsTruthy v = false →
      (scannerWebhookData data).documentType = some (Json.str "application/pdf")) := by
  refine ⟨fun h => ?_, fun v hv ht => ?_, fun v hv ht => ?_⟩ <;>
    simp [scannerWebhookData, jsOr, *]

/-- Witness for C8 (amended): default applied on an absent field, a present
truthy value kept, a present falsy value replaced. -/
theorem claim8_witness :
    (scannerWebhookData (Json.obj [])).documentType = some (Json.str "application/pdf")
    ∧ (scannerWebhookData (Json.obj [("documentType", Json.str "image/png")])).documentType
        = some (Json.str "image/png")
    ∧ (scannerWebhookData (Json.obj [("documentType", Json.null)])).documentType
        = some (Json.str "application/pdf") :=
  ⟨(claim8_scanner_default (Json.obj [])).1 rfl,
   (claim8_scanner_default (Json.obj [("documentType", Json.str "image/png")])).2.1
     (Json.str "image/png") rfl rfl,
   (claim8_scanner_default (Json.obj [("documentType", Json.null)])).2.2
     Json.null rfl rfl⟩

/-- Counterexample for C9 as stated: a declared empty-string source is
JavaScript-falsy, so the external normalization replaces it with the string
external rather than carrying the caller-declared value. -/
theorem claim9_counterexample :
    (Json.obj [("source", Json.str "")]).getField "source" = some (Json.str "")
    ∧ (externalWebhookData (Json.obj [("source", Json.str "")])).source
        = Json.str "external"
    ∧ Json.str "external" ≠ Json.str "" :=
  ⟨rfl, rfl, by simp⟩

/-- Claim C9 (amended): the external normalization's source is the
caller-declared source value when it is present and truthy and the string
external otherwise; documentType is the caller-supplied value passed through
with no default; and the metadata carries filename, externalId,
externalSystem, createdAt, createdBy and additionalData from the body. -/
theorem claim9_external_normalization (data v : Json)
    (hv : data.getField "source" = some v) :
    (externalWebhookData data).source = (if jsTruthy v then v else Json.str "external")
    ∧ (externalWebhookData data).documentType = data.getField "documentType"
    ∧ metaGet (externalWebhookData data) "filename" = data.getField "filename"
    ∧ metaGet (externalWebhookData data) "externalId" = data.getField "externalId"
    ∧ metaGet (externalWebhookData data) "externalSystem" = data.getField "externalSystem"
    ∧ metaGet (externalWebhookData data) "createdAt" = data.getField "createdAt"
    ∧ metaGet (externalWebhookData data) "createdBy" = data.getField "createdBy"
    ∧ metaGet (externalWebhookData data) "additionalData"
        = data.getField "additionalData" := by
  refine ⟨?_, ?_, ?_, ?_, ?_, ?_, ?_, ?_⟩ <;>
    simp [externalWebhookData, metaGet, jsOr, hv, List.lookup]

/-- Witness for C9 (amended) at a concrete external body with a truthy
declared sub-source. -/
theorem claim9_witness :
    (externalWebhookData externalSpecBody).source = Json.str "sap-hr"
    ∧ (externalWebhookData externalSpecBody).documentType
        = some (Json.str "application/msword")
    ∧ metaGet (externalWebhookData externalSpecBody) "filename" = some (Json.str "d.doc")
    ∧ metaGet (externalWebhookData externalSpecBody) "externalId" = some (Json.str "X1")
    ∧ metaGet (externalWebhookData externalSpecBody) "externalSystem"
        = some (Json.str "SAP")
    ∧ metaGet (externalWebhookData externalSpecBody) "createdAt"
        = some (Json.str "2025-02-02T00:00:00Z")
    ∧ metaGet (externalWebhookData externalSpecBody) "createdBy" = some (Json.str "u9")
    ∧ metaGet (externalWebhookData externalSpecBody) "additionalData"
        = some (Json.obj [("k", Json.str "v")]) :=
  claim9_external_normalization externalSpecBody (Json.str "sap-hr") rfl

/-- Claim C10: the handler makes at most one pipeline call per request
(nothing is retried), always produces a response from the closed status set
(no thrown error escapes the top-level boundary), and converts a pipeline
failure on its dispatched event into a 500 response whose body is the
error-payload shape with a string message. -/
theorem claim10_error_boundary (p : Pipeline) (cfg : WebhookConfig) (req : Request) :
    (processWebhook p cfg req).2.length ≤ 1
    ∧ (processWebhook p cfg req).1.status ∈ ([200, 400, 401, 500] : List Nat)
    ∧ (∀ wd ∈ (processWebhook p cfg req).2, ∀ e, p wd = .error e →
        ∃ m, (processWebhook p cfg req).1 = { status := 500, body := errorBody m 500 }) := by
  by_cases hg : signatureGuardRejects cfg req = true
  · simp [processWebhook, hg]
  · have hg2 : signatureGuardRejects cfg req = false := by simpa using hg
    obtain ⟨h1, h2, h3⟩ := dispatchWebhook_spec p req.paramsType req.body
    simp only [processWebhook, hg2, Bool.false_eq_true, if_false, ite_false]
    refine ⟨h1, ?_, h3⟩
    simp only [List.mem_cons, List.not_mem_nil, or_false] at h2 ⊢
    rcases h2 with h | h | h <;> simp [h]

/-- Witness for C10 with a throwing pipeline: at most one call, a status
from the closed set, and a 500 answer. -/
theorem claim10_witness :
    (processWebhook failPipeline emptyConfig reqNoHeader).2.length ≤ 1
    ∧ (processWebhook failPipeline emptyConfig reqNoHeader).1.status
        ∈ ([200, 400, 401, 500] : List Nat)
    ∧ (processWebhook failPipeline emptyConfig reqNoHeader).1.status = 500 := by
  have h := claim10_error_boundary failPipeline emptyConfig reqNoHeader
  refine ⟨h.1, h.2.1, ?_⟩
  obtain ⟨m, hm⟩ := h.2.2 (emailWebhookData (Json.obj []))
    (List.mem_singleton.mpr rfl) "downstream failure" rfl
  rw [hm]

set_option maxRecDepth 400000 in
/-- Claim C1 fails on the code: for the raw body with a space after the
colon, signed correctly over its raw bytes, the verifier returns false and
the handler rejects with 401 — because verifySignature hashes
JSON.stringify(req.body), the re-serialization of the parsed body, rather
than the raw bytes req.rawBody that the route's raw-body middleware captured
for exactly this purpose. -/
theorem claim1_raw_body_not_hashed :
    ∃ req : Request,
      mkWebhookRequest "email" (some (hmacSha256Hex "s3cr3t" rawBodySpaced)) rawBodySpaced
        = some req
      ∧ req.rawBody = rawBodySpaced
      ∧ jsonStringify req.body ≠ req.rawBody
      ∧ verifySignature req "s3cr3t" = false
      ∧ processWebhook okPipeline allSecretConfig req
          = ({ status := 401, body := errorBody "Invalid webhook signature" 401 }, []) := by
  refine ⟨{ paramsType := "email",
            signatureHeader := some (hmacSha256Hex "s3cr3t" rawBodySpaced),
            rawBody := rawBodySpaced,
            body := Json.obj [("a", Json.num 1)] }, rfl, rfl, by decide, ?_, ?_⟩
  · decide
  · rfl
